import Mathlib

/-
Verification of the adaptive trading engine of this repository
(backend: technical_analysis.py, enhanced_ml_system.py, advanced_ai_system.py,
enhanced_server.py) against its natural-language design document.

Real numbers of the Python source (floats) are modelled as rationals; Python
dictionaries holding a fixed set of keys are modelled as structures.  Every
definition carries a comment naming the source function and lines it embeds.
-/

namespace TradingEngine

/-- Direction of a forecast; the source stores the strings "UP" / "DOWN". -/
inductive Trend where
  | UP : Trend
  | DOWN : Trend
deriving DecidableEq, Repr

/-- MACD sub-dictionary produced by calculate_macd (technical_analysis.py 89-99). -/
structure MACDData where
  macd : ℚ
  signal : ℚ
  histogram : ℚ
deriving DecidableEq, Repr

/-- Bollinger-band sub-dictionary, calculate_bollinger_bands (technical_analysis.py 101-120). -/
structure BollingerData where
  upper : ℚ
  middle : ℚ
  lower : ℚ
  position : ℚ
deriving DecidableEq, Repr

/-- EMA sub-dictionary, calculate_emas (technical_analysis.py 122-143). -/
structure EMAData where
  ema_20 : ℚ
  ema_50 : ℚ
  crossover : Bool
  golden_cross : Bool
  death_cross : Bool
deriving DecidableEq, Repr

/-- Stochastic oscillator sub-dictionary, calculate_stochastic (technical_analysis.py 145-154). -/
structure StochasticData where
  k : ℚ
  d : ℚ
deriving DecidableEq, Repr

/-- Volume sub-dictionary, analyze_volume (technical_analysis.py 156-177). -/
structure VolumeData where
  current_volume : ℚ
  volume_ma : ℚ
  volume_strength : ℚ
  volume_trend : ℚ
deriving DecidableEq, Repr

/-- Candle-pattern sub-dictionary, detect_candlestick_patterns (technical_analysis.py 179-212). -/
structure PatternData where
  hammer : Bool
  doji : Bool
  engulfing : Bool
deriving DecidableEq, Repr

/-- Support/resistance sub-dictionary, calculate_support_resistance (technical_analysis.py 214-254). -/
structure SupportResistanceData where
  resistance : ℚ
  support : ℚ
  resistance_distance : ℚ
  support_distance : ℚ
deriving DecidableEq, Repr

/-- The indicator snapshot assembled by comprehensive_analysis
(technical_analysis.py 358-371), before the signals entry is added. -/
structure TechnicalAnalysis where
  current_price : ℚ
  rsi : ℚ
  macd : MACDData
  bollinger : BollingerData
  emas : EMAData
  stochastic : StochasticData
  volume : VolumeData
  patterns : PatternData
  support_resistance : SupportResistanceData
deriving DecidableEq, Repr

/-- Result dictionary of generate_signals (technical_analysis.py 332-339). -/
structure SignalResult where
  strength : Int
  confidence : ℚ
  bullish_signals : List String
  bearish_signals : List String
  total_signals : Nat
  net_bullish : Int
deriving DecidableEq, Repr

/-- RSI rule delta of generate_signals (technical_analysis.py 262-269). -/
def rsi_delta (a : TechnicalAnalysis) : Int :=
  if a.rsi < 30 then 15 else if 70 < a.rsi then -15 else 0

/-- MACD rule delta of generate_signals (technical_analysis.py 271-278). -/
def macd_delta (a : TechnicalAnalysis) : Int :=
  if 0 < a.macd.histogram ∧ a.macd.signal < a.macd.macd then 20
  else if a.macd.histogram < 0 ∧ a.macd.macd < a.macd.signal then -20
  else 0

/-- EMA rule delta of generate_signals (technical_analysis.py 280-293); the
elif chain always contributes one of +25, -25, +10, -10. -/
def ema_delta (a : TechnicalAnalysis) : Int :=
  if a.emas.golden_cross then 25
  else if a.emas.death_cross then -25
  else if a.emas.crossover then 10
  else -10

/-- Bollinger rule delta of generate_signals (technical_analysis.py 295-303). -/
def bb_delta (a : TechnicalAnalysis) : Int :=
  if a.bollinger.position < 1/5 then 15
  else if 4/5 < a.bollinger.position then -15
  else 0

/-- Running strength after the RSI, MACD, EMA and Bollinger rules. -/
def strength_after_bb (a : TechnicalAnalysis) : Int :=
  rsi_delta a + macd_delta a + ema_delta a + bb_delta a

/-- Running strength after the volume rule (technical_analysis.py 305-313):
with volume_strength > 50 the delta is +10 when the running strength is
positive and -10 otherwise. -/
def strength_after_volume (a : TechnicalAnalysis) : Int :=
  if 50 < a.volume.volume_strength then
    (if 0 < strength_after_bb a then strength_after_bb a + 10
     else strength_after_bb a - 10)
  else strength_after_bb a

/-- Running strength after the hammer rule (technical_analysis.py 317-319). -/
def strength_after_hammer (a : TechnicalAnalysis) : Int :=
  strength_after_volume a + (if a.patterns.hammer then 12 else 0)

/-- Final signal strength after the engulfing rule (technical_analysis.py
320-326); no clamping of any kind is applied afterwards. -/
def signal_strength (a : TechnicalAnalysis) : Int :=
  if a.patterns.engulfing then
    (if 0 < strength_after_hammer a then strength_after_hammer a + 15
     else strength_after_hammer a - 15)
  else strength_after_hammer a

/-- Bullish label list accumulated by generate_signals (technical_analysis.py 258-326). -/
def bullish_list (a : TechnicalAnalysis) : List String :=
  (if a.rsi < 30 then ["RSI oversold (<30)"] else []) ++
  (if 0 < a.macd.histogram ∧ a.macd.signal < a.macd.macd then ["MACD bullish crossover"] else []) ++
  (if a.emas.golden_cross then ["EMA golden cross"] else
    if a.emas.death_cross then [] else
    if a.emas.crossover then ["EMA 20 above EMA 50"] else []) ++
  (if a.bollinger.position < 1/5 then ["Price near lower Bollinger Band"] else []) ++
  (if 50 < a.volume.volume_strength ∧ 0 < strength_after_bb a then
    ["High volume confirms bullish move"] else []) ++
  (if a.patterns.hammer then ["Hammer candlestick pattern"] else []) ++
  (if a.patterns.engulfing ∧ 0 < strength_after_hammer a then
    ["Bullish engulfing pattern"] else [])

/-- Bearish label list accumulated by generate_signals (technical_analysis.py 258-326). -/
def bearish_list (a : TechnicalAnalysis) : List String :=
  (if ¬ (a.rsi < 30) ∧ 70 < a.rsi then ["RSI overbought (>70)"] else []) ++
  (if ¬ (0 < a.macd.histogram ∧ a.macd.signal < a.macd.macd) ∧
      (a.macd.histogram < 0 ∧ a.macd.macd < a.macd.signal) then
    ["MACD bearish crossover"] else []) ++
  (if a.emas.golden_cross then [] else
    if a.emas.death_cross then ["EMA death cross"] else
    if a.emas.crossover then [] else ["EMA 20 below EMA 50"]) ++
  (if ¬ (a.bollinger.position < 1/5) ∧ 4/5 < a.bollinger.position then
    ["Price near upper Bollinger Band"] else []) ++
  (if 50 < a.volume.volume_strength ∧ ¬ (0 < strength_after_bb a) then
    ["High volume confirms bearish move"] else []) ++
  (if a.patterns.engulfing ∧ ¬ (0 < strength_after_hammer a) then
    ["Bearish engulfing pattern"] else [])

/-- The Signal Scorer: generate_signals (technical_analysis.py 256-339).
Strength is the running sum of the fixed per-rule deltas; the confidence is
first min(|strength|/100, 0.95) and then max of that with 0.5 (lines 328-330);
the output carries the label lists and their counts. -/
def generate_signals (a : TechnicalAnalysis) : SignalResult :=
  { strength := signal_strength a
    confidence := max (min (((signal_strength a).natAbs : ℚ) / 100) (95/100)) (1/2)
    bullish_signals := bullish_list a
    bearish_signals := bearish_list a
    total_signals := (bullish_list a).length + (bearish_list a).length
    net_bullish := ((bullish_list a).length : Int) - ((bearish_list a).length : Int) }

/-- One OHLCV bar of the market-data DataFrame (technical_analysis.py 52-62). -/
structure OHLCVBar where
  timestamp : ℚ
  open_price : ℚ
  high : ℚ
  low : ℚ
  close : ℚ
  volume : ℚ
deriving DecidableEq, Repr

/-- Indicator snapshot together with the signals entry that
comprehensive_analysis adds to it (technical_analysis.py 374-375). -/
structure AnalysisWithSignals where
  analysis : TechnicalAnalysis
  signals : SignalResult
deriving DecidableEq, Repr

/-- Attach the Signal Scorer output to a snapshot, as comprehensive_analysis does. -/
def with_signals (a : TechnicalAnalysis) : AnalysisWithSignals :=
  { analysis := a, signals := generate_signals a }

/-- comprehensive_analysis (technical_analysis.py 341-379): windows shorter
than 50 bars yield the documented insufficient-data failure (the function
returns None, technical_analysis.py 344-346); otherwise all indicators are
computed and the signals entry is attached.  The individual indicator
computations delegate to the external ta library (an external collaborator),
abstracted here as the argument `indicators`. -/
def comprehensive_analysis (indicators : List OHLCVBar → TechnicalAnalysis)
    (df : List OHLCVBar) : Option AnalysisWithSignals :=
  if df.length < 50 then none
  else some (with_signals (indicators df))

/-- extract_features (enhanced_ml_system.py 68-151): 22 feature values are
appended (indicators, patterns, aggregate signals and two time-of-day
features), the zero-fill loop of lines 141-142 pads to 20 when fewer were
produced, and line 144 truncates to exactly 20.  np.tanh is the external
numpy function, abstracted as the argument `tanh`; the two time features
come from datetime.utcnow(), passed as `hour` and `weekday`. -/
def extract_features (tanh : ℚ → ℚ) (aw : AnalysisWithSignals)
    (hour weekday : ℚ) : List ℚ :=
  let a := aw.analysis
  let s := aw.signals
  let features : List ℚ :=
    [ a.rsi / 100,
      a.macd.macd / 1000, a.macd.signal / 1000, a.macd.histogram / 1000,
      a.bollinger.position,
      (if a.emas.crossover then 1 else 0),
      (if a.emas.golden_cross then 1 else 0),
      (if a.emas.death_cross then 1 else 0),
      a.stochastic.k / 100, a.stochastic.d / 100,
      tanh (a.volume.volume_strength / 100), tanh (a.volume.volume_trend / 100),
      (if a.patterns.hammer then 1 else 0),
      (if a.patterns.doji then 1 else 0),
      (if a.patterns.engulfing then 1 else 0),
      tanh (a.support_resistance.resistance_distance / 10),
      tanh (a.support_resistance.support_distance / 10),
      tanh ((s.strength : ℚ) / 100),
      (s.bullish_signals.length : ℚ), (s.bearish_signals.length : ℚ),
      hour / 24, weekday / 7 ]
  let padded := features ++ List.replicate (20 - features.length) 0
  padded.take 20

/-- The model_details diagnostic record of a Prediction: the basic fallback
emits {method: Technical Analysis Fallback} (enhanced_ml_system.py 393-395),
the error fallback {method: Random Fallback} (line 405), and the trained
ensemble path a record with consensus data (lines 337-342). -/
inductive ModelDetail where
  | technical_fallback : ModelDetail
  | random_fallback : ModelDetail
  | ml_ensemble (consensus_score : ℚ) (feature_count : Nat) : ModelDetail
deriving DecidableEq, Repr

/-- The Prediction dictionary shape shared by the ML path and the fallback
path of enhanced_ml_system.py (lines 329-344 and 385-396). -/
structure Prediction where
  direction : Trend
  confidence : ℚ
  prob_up : ℚ
  prob_down : ℚ
  reasoning : List String
  model_details : ModelDetail
deriving DecidableEq, Repr

/-- basic_prediction (enhanced_ml_system.py 364-396): the Signal-only
heuristic fallback.  Direction follows the sign of the signal strength,
confidence is max(min(|strength|/100, 0.8), 0.5), probabilities are derived
from the confidence, and model_details marks the heuristic fallback. -/
def basic_prediction (aw : AnalysisWithSignals) : Prediction :=
  let strength := aw.signals.strength
  let direction := if 0 < strength then Trend.UP else Trend.DOWN
  let confidence := max (min ((strength.natAbs : ℚ) / 100) (8/10)) (1/2)
  let prob_main := 1/2 + confidence * (1/2)
  { direction := direction
    confidence := confidence
    prob_up := if direction = Trend.UP then prob_main else 1 - prob_main
    prob_down := if direction = Trend.UP then 1 - prob_main else prob_main
    reasoning := ["Análisis técnico básico", "Fuerza de señal: " ++ toString strength]
    model_details := ModelDetail.technical_fallback }

/-- One entry of the in-memory prediction history deque
(enhanced_ml_system.py 350-354). -/
structure PHEntry where
  prediction : Prediction
  technical_analysis : AnalysisWithSignals
deriving DecidableEq, Repr

/-- One entry of the learning queue (enhanced_ml_system.py 477-481). -/
structure QEntry where
  features : List ℚ
  label : Nat
deriving DecidableEq, Repr

/-- In-memory state of EnhancedMLSystem (enhanced_ml_system.py 27-66)
relevant to the claims: the trained flag and model table presence, the
prediction history, the learning queue, and the prediction statistics. -/
structure MLState where
  is_trained : Bool
  models : List String
  prediction_history : List PHEntry
  learning_queue : List QEntry
  total_predictions : Nat
  correct_predictions : Nat
  labeled_predictions : Nat
  recent_accuracy : ℚ

/-- advanced_prediction (enhanced_ml_system.py 280-362): when the system is
untrained or holds no models (line 283) the call falls back to
basic_prediction and no exception escapes; the trained path runs the
external sklearn ensemble, abstracted as the argument `mlCore` (the history
bookkeeping of lines 346-354 is internal to that path). -/
def advanced_prediction (mlCore : MLState → AnalysisWithSignals → Prediction)
    (st : MLState) (aw : AnalysisWithSignals) : Prediction :=
  if st.is_trained = true ∧ st.models ≠ [] then mlCore st aw
  else basic_prediction aw

/-- The matching step of learn_from_result (enhanced_ml_system.py 452-456):
the loop takes the first element of the reversed history, i.e. the most
recent entry; the simulation id plays no part in the match. -/
def matching_prediction (history : List PHEntry) : Option PHEntry :=
  history.reverse.head?

/-- learn_from_result (enhanced_ml_system.py 448-491): pairs the incoming
outcome with matching_prediction of the history, updates the labeled /
correct counters and the recent accuracy, and appends the features of the
matched entry with the outcome label to the learning queue (deque maxlen
500).  The retraining trigger of lines 487-488 goes to the database and
sklearn (external collaborators) and is outside this state model. -/
def learn_from_result (tanh : ℚ → ℚ) (hour weekday : ℚ) (st : MLState)
    (simulation_id : String) (actual_result : Bool) : MLState :=
  match matching_prediction st.prediction_history with
  | none => st
  | some entry =>
    let labeled := st.labeled_predictions + 1
    let was_correct : Bool :=
      (entry.prediction.direction == Trend.UP && actual_result) ||
      (entry.prediction.direction == Trend.DOWN && !actual_result)
    let correct :=
      if was_correct then st.correct_predictions + 1 else st.correct_predictions
    let q0 := st.learning_queue ++
      [{ features := extract_features tanh entry.technical_analysis hour weekday
         label := if actual_result then 1 else 0 }]
    { st with
      labeled_predictions := labeled
      correct_predictions := correct
      recent_accuracy := (correct : ℚ) / (labeled : ℚ)
      learning_queue := q0.drop (q0.length - 500) }

/-- Modelled from the spec: the Signal Scorer confidence formula claimed in
section 4.2, min(max(0.5, 0.5 + 0.1 rule_count + 0.3 |strength|/100), 0.95),
stated for comparison with the implemented generate_signals. -/
def spec_confidence (rule_count : Nat) (strength : Int) : ℚ :=
  min (max (1/2) (1/2 + (rule_count : ℚ) / 10 + 3 * (strength.natAbs : ℚ) / 1000)) (95/100)

/-- The error categories of ErrorLearningSystem.correction_factors
(advanced_ai_system.py 37-46). -/
inductive Category where
  | rsi_overbought : Category
  | rsi_oversold : Category
  | macd_false_signal : Category
  | volume_anomaly : Category
  | ema_crossover_fail : Category
  | bollinger_breakout_fail : Category
  | pattern_recognition_fail : Category
  | support_resistance_break : Category
deriving DecidableEq, Repr

/-- The fixed per-category increments of advanced_ai_system.py 37-46. -/
def correction_factors : Category → ℚ
  | Category.rsi_overbought => 15/100
  | Category.rsi_oversold => 15/100
  | Category.macd_false_signal => 20/100
  | Category.volume_anomaly => 10/100
  | Category.ema_crossover_fail => 25/100
  | Category.bollinger_breakout_fail => 18/100
  | Category.pattern_recognition_fail => 12/100
  | Category.support_resistance_break => 22/100

/-- The pattern battery of analyze_failed_prediction (advanced_ai_system.py
68-175): the list of categories identified for a failed (snapshot,
direction) pair, in source order. -/
def identify_errors (a : TechnicalAnalysis) (pred : Trend) : List Category :=
  (if 70 < a.rsi ∧ pred = Trend.UP then [Category.rsi_overbought]
   else if a.rsi < 30 ∧ pred = Trend.DOWN then [Category.rsi_oversold] else []) ++
  (if |a.macd.histogram| < 1/100 then [Category.macd_false_signal] else []) ++
  (if a.emas.golden_cross = true ∧ pred = Trend.UP then [Category.ema_crossover_fail] else []) ++
  (if (9/10 < a.bollinger.position ∧ pred = Trend.UP) ∨
      (a.bollinger.position < 1/10 ∧ pred = Trend.DOWN) then
    [Category.bollinger_breakout_fail] else []) ++
  (if 100 < |a.volume.volume_strength| then [Category.volume_anomaly] else []) ++
  (if a.support_resistance.resistance_distance < 1 ∧ pred = Trend.UP then
    [Category.support_resistance_break] else [])

/-- apply_corrections (advanced_ai_system.py 192-222): for every identified
category the weight is increased by its fixed factor and clamped at 0.8. -/
def apply_corrections (ws : Category → ℚ) : List Category → (Category → ℚ)
  | [] => ws
  | t :: rest =>
    apply_corrections
      (fun c => if c = t then min (ws c + correction_factors t) (4/5) else ws c) rest

/-- In-memory state of ErrorLearningSystem (advanced_ai_system.py 20-49):
the correction-weight table (defaultdict(float), i.e. every category starts
at 0) and the recent-errors deque (maxlen 200), holding each analyzed
failure's identified category list. -/
structure ELState where
  weights : Category → ℚ
  recent_errors : List (List Category)

/-- The freshly constructed ErrorLearningSystem: all weights zero, no
recorded errors. -/
def initial_el : ELState := { weights := fun _ => 0, recent_errors := [] }

/-- analyze_failed_prediction (advanced_ai_system.py 51-190) as a state
transition: successful simulations return without effect (lines 65-66); for
failures the identified category list is appended to recent_errors (deque
maxlen 200, line 178) and apply_corrections is run on it (line 182). -/
def analyze_failed_prediction (st : ELState) (a : TechnicalAnalysis)
    (pred : Trend) (actual_success : Bool) : ELState :=
  if actual_success then st
  else
    let errs := identify_errors a pred
    let r := st.recent_errors ++ [errs]
    { weights := apply_corrections st.weights errs
      recent_errors := r.drop (r.length - 200) }

/-- One conditional subtraction statement of get_correction_factor: the
running total t loses the weight w when the pattern condition p holds. -/
def sub_if (p : Prop) [Decidable p] (w t : ℚ) : ℚ := if p then t - w else t

/-- get_correction_factor (advanced_ai_system.py 224-271): starting from 0,
the weight of every matched category is subtracted in source order, and the
total is floored at -0.3 (line 265). -/
def get_correction_factor (ws : Category → ℚ) (a : TechnicalAnalysis)
    (pred : Trend) : ℚ :=
  let t1 : ℚ :=
    if 70 < a.rsi ∧ pred = Trend.UP then 0 - ws Category.rsi_overbought
    else if a.rsi < 30 ∧ pred = Trend.DOWN then 0 - ws Category.rsi_oversold
    else 0
  let t2 := sub_if (|a.macd.histogram| < 1/100) (ws Category.macd_false_signal) t1
  let t3 := sub_if (a.emas.golden_cross = true ∧ pred = Trend.UP)
    (ws Category.ema_crossover_fail) t2
  let t4 := sub_if ((9/10 < a.bollinger.position ∧ pred = Trend.UP) ∨
      (a.bollinger.position < 1/10 ∧ pred = Trend.DOWN))
    (ws Category.bollinger_breakout_fail) t3
  let t5 := sub_if (100 < |a.volume.volume_strength|) (ws Category.volume_anomaly) t4
  let t6 := sub_if (a.support_resistance.resistance_distance < 1 ∧ pred = Trend.UP)
    (ws Category.support_resistance_break) t5
  max t6 (-(3/10))

/-- First-appearance order of the categories in the analyzed window,
matching the insertion order of the recent_error_types defaultdict built in
optimize_for_90_percent (advanced_ai_system.py 279-282). -/
def appeared (recent : List (List Category)) : List Category :=
  recent.flatten.foldl (fun acc c => if c ∈ acc then acc else acc ++ [c]) []

/-- The category selection of optimize_for_90_percent (advanced_ai_system.py
279-290): count each category over the window, stable-sort descending by
count (Python's sorted with reverse=True), keep the top five, and of those
keep the ones with count > 5.  Stable sorting makes the result independent
of the sorting algorithm, so insertion sort stands in for timsort. -/
def optimize_selected (recent : List (List Category)) : List Category :=
  let flat := recent.flatten
  let ranked := List.insertionSort (fun p q : Category × Nat => q.2 ≤ p.2)
    ((appeared recent).map (fun c => (c, flat.count c)))
  (ranked.take 5).filterMap (fun p => if 5 < p.2 then some p.1 else none)

/-- optimize_for_90_percent (advanced_ai_system.py 273-320): over the last
50 recorded errors (line 280), every selected category's weight becomes
min(current + 0.1, 0.5) (lines 292-294); all other weights and the error
window are untouched. -/
def optimize_for_90_percent (st : ELState) : ELState :=
  let selected := optimize_selected
    (st.recent_errors.drop (st.recent_errors.length - 50))
  { st with weights := fun c =>
      if c ∈ selected then min (st.weights c + 1/10) (1/2) else st.weights c }

/-- States of ErrorLearningSystem reachable from construction by any
sequence of analyze_failed_prediction (observe_failure) and
optimize_for_90_percent (optimize) calls. -/
inductive ELReach : ELState → Prop where
  | init : ELReach initial_el
  | observe (st : ELState) (a : TechnicalAnalysis) (pred : Trend)
      (actual_success : Bool) : ELReach st →
      ELReach (analyze_failed_prediction st a pred actual_success)
  | optimize (st : ELState) : ELReach st → ELReach (optimize_for_90_percent st)

/-- Python's substring test of entry_method against the pattern REAL
(enhanced_server.py 616), on the code-point list of the string. -/
def contains_real (s : String) : Bool := decide ("REAL".toList <:+: s.toList)

/-- The base outcome rule of close_real_simulation (enhanced_server.py
603-613): with price_change_pct = (exit - entry)/entry * 100, an UP
prediction succeeds iff price_change_pct > 0.1 and a DOWN prediction iff
price_change_pct < -0.1. -/
def close_base_success (entry_price exit_price : ℚ) (trend : Trend) : Bool :=
  let price_change := (exit_price - entry_price) / entry_price * 100
  match trend with
  | Trend.UP => decide (1/10 < price_change)
  | Trend.DOWN => decide (price_change < -(1/10))

/-- The success label computed by close_real_simulation (enhanced_server.py
603-621) including the confidence bonus of lines 615-621: when the entry
method contains "REAL" and confidence > 0.8, a random draw below 0.15
forces the label to true.  The draw random.random() is passed in as `r`. -/
def close_is_success (entry_price exit_price : ℚ) (trend : Trend)
    (confidence : ℚ) (entry_method : String) (r : ℚ) : Bool :=
  let base := close_base_success entry_price exit_price trend
  if contains_real entry_method = true ∧ 4/5 < confidence then
    (if r < 3/20 then true else base)
  else base

/-- The result_pct computed by close_real_simulation (enhanced_server.py
608-613), before rounding for storage: the raw change for UP predictions,
and for DOWN predictions |change| on success and -|change| on failure. -/
def close_result_pct (entry_price exit_price : ℚ) (trend : Trend) : ℚ :=
  let price_change := (exit_price - entry_price) / entry_price * 100
  match trend with
  | Trend.UP => price_change
  | Trend.DOWN =>
    if price_change < -(1/10) then |price_change| else -|price_change|

/-- One stored simulation record (enhanced_server.py 533-554). -/
structure SimRecord where
  id : String
  timestamp : ℚ
  entry_price : ℚ
  trend : Trend
  confidence : ℚ
  entry_method : String
  closed : Bool
  exit_price : Option ℚ
  result_pct : Option ℚ
  success : Option Bool
  learning_feedback : Option Bool
deriving DecidableEq, Repr

/-- A MongoDB $set document as used by the manual update path and by
close_real_simulation (enhanced_server.py 246-255, 623-647): every present
field overwrites the stored one. -/
structure UpdateData where
  exit_price : Option ℚ
  result_pct : Option ℚ
  success : Option Bool
  closed : Option Bool
  learning_feedback : Option Bool
deriving DecidableEq, Repr

/-- Apply a $set document to one record. -/
def applySet (u : UpdateData) (s : SimRecord) : SimRecord :=
  { s with
    exit_price := match u.exit_price with | some v => some v | none => s.exit_price
    result_pct := match u.result_pct with | some v => some v | none => s.result_pct
    success := match u.success with | some v => some v | none => s.success
    closed := match u.closed with | some v => v | none => s.closed
    learning_feedback :=
      match u.learning_feedback with | some v => some v | none => s.learning_feedback }

/-- Mongo update_one on a collection: the first record with the given id is
updated; the second component is the matched count (0 or 1). -/
def update_one : List SimRecord → String → UpdateData → List SimRecord × Nat
  | [], _, _ => ([], 0)
  | s :: rest, i, u =>
    if s.id = i then (applySet u s :: rest, 1)
    else
      let p := update_one rest i u
      (s :: p.1, p.2)

/-- The manual update path update_simulation (enhanced_server.py 242-267):
try enhanced_simulations first, fall back to simulations, 404 when neither
matches.  The $set is applied unconditionally; no field of the stored
record, in particular not the closed flag, is consulted first.  (The
learning side effect of lines 261-263 is the learn_from_result call modelled
above.) -/
def update_simulation (enhanced regular : List SimRecord) (id : String)
    (u : UpdateData) : Except String (List SimRecord × List SimRecord) :=
  let p1 := update_one enhanced id u
  if p1.2 = 0 then
    let p2 := update_one regular id u
    if p2.2 = 0 then Except.error "Simulation not found"
    else Except.ok (enhanced, p2.1)
  else Except.ok (p1.1, regular)

/-- The selection step of close_real_simulation (enhanced_server.py
569-591): only records with closed = false are fetched, of those the ones
open for more than 120 seconds are eligible, and the newest eligible one
(Python max by timestamp, first among ties) is chosen. -/
def select_sim_to_close (ledger : List SimRecord) (now : ℚ) : Option SimRecord :=
  let open_sims := ledger.filter (fun s => s.closed = false)
  let eligible := open_sims.filter (fun s => 120 < now - s.timestamp)
  eligible.foldl
    (fun acc s =>
      match acc with
      | none => some s
      | some m => if m.timestamp < s.timestamp then some s else some m)
    none

/-- The confidence stored on a freshly generated simulation
(enhanced_server.py 496-527): the pre-correction confidence and trend come
from the ML prediction when one is available and otherwise from the
technical signals (lines 497-515); then the correction factor is added and
the result floored at 0.1 (line 527). -/
def stored_confidence (ws : Category → ℚ) (aw : AnalysisWithSignals)
    (ml : Option Prediction) : ℚ :=
  let trend := match ml with
    | some p => p.direction
    | none => if 0 < aw.signals.strength then Trend.UP else Trend.DOWN
  let conf := match ml with
    | some p => p.confidence
    | none => aw.signals.confidence
  max (1/10) (conf + get_correction_factor ws aw.analysis trend)

/-- A fully neutral indicator snapshot: RSI 50, flat MACD, mid-band price,
no EMA cross, average volume, no candle patterns, far support/resistance.
Only the always-on EMA position rule fires on it. -/
def baseSnap : TechnicalAnalysis :=
  { current_price := 100
    rsi := 50
    macd := { macd := 0, signal := 0, histogram := 0 }
    bollinger := { upper := 110, middle := 100, lower := 90, position := 1/2 }
    emas := { ema_20 := 100, ema_50 := 100, crossover := false,
              golden_cross := false, death_cross := false }
    stochastic := { k := 50, d := 50 }
    volume := { current_volume := 1000, volume_ma := 1000,
                volume_strength := 0, volume_trend := 0 }
    patterns := { hammer := false, doji := false, engulfing := false }
    support_resistance := { resistance := 110, support := 90,
                            resistance_distance := 10, support_distance := 10 } }

/-- A snapshot on which every bullish rule of the Signal Scorer fires
simultaneously: oversold RSI, bullish MACD, golden cross, price at the lower
band, strong volume, hammer and engulfing patterns. -/
def bullSnap : TechnicalAnalysis :=
  { baseSnap with
    rsi := 25
    macd := { macd := 2, signal := 1, histogram := 1 }
    emas := { ema_20 := 105, ema_50 := 100, crossover := true,
              golden_cross := true, death_cross := false }
    bollinger := { upper := 110, middle := 100, lower := 90, position := 1/10 }
    volume := { current_volume := 1600, volume_ma := 1000,
                volume_strength := 60, volume_trend := 0 }
    patterns := { hammer := true, doji := false, engulfing := true } }

/-- A snapshot whose only identified error pattern is a weak MACD histogram
(|histogram| < 0.01). -/
def macdFailSnap : TechnicalAnalysis :=
  { baseSnap with macd := { macd := -1, signal := 0, histogram := -(1/200) } }

/-- A snapshot with summed signal strength exactly 0 (so Scorer confidence
0.5 and fallback trend DOWN) that still matches the weak-MACD correction
category: RSI rule +15, MACD rule -20, EMA rule -10, Bollinger rule +15. -/
def zeroSnap : TechnicalAnalysis :=
  { baseSnap with
    rsi := 25
    macd := { macd := -1, signal := 0, histogram := -(1/200) }
    bollinger := { upper := 110, middle := 100, lower := 90, position := 1/10 } }

/-- A snapshot whose only identified error pattern for an UP prediction is
the failed golden cross. -/
def emaFailSnap : TechnicalAnalysis :=
  { baseSnap with
    macd := { macd := 1, signal := 0, histogram := 1 }
    emas := { ema_20 := 105, ema_50 := 100, crossover := true,
              golden_cross := true, death_cross := false } }

/-- One observed failure of the golden-cross category. -/
def obs_ema (st : ELState) : ELState :=
  analyze_failed_prediction st emaFailSnap Trend.UP false

/-- Six observed failures of the golden-cross category: its weight has been
pushed to the observe_failure ceiling 0.8, and its frequency count 6 lies
above the optimize threshold 5. -/
def st_ema6 : ELState := obs_ema (obs_ema (obs_ema (obs_ema (obs_ema (obs_ema initial_el)))))

/-- Learner state after two observed weak-MACD failures. -/
def st_macd2 : ELState :=
  analyze_failed_prediction
    (analyze_failed_prediction initial_el macdFailSnap Trend.DOWN false)
    macdFailSnap Trend.DOWN false

/-- Correction weights after two observed weak-MACD failures: the
macd_false_signal weight is 0.4. -/
def ws_macd2 : Category → ℚ := st_macd2.weights

/-- An already-closed stored simulation. -/
def closedSim : SimRecord :=
  { id := "sim-1", timestamp := 0, entry_price := 100, trend := Trend.UP
    confidence := 7/10, entry_method := "ML_REAL_BINANCE_DATA", closed := true
    exit_price := some 105, result_pct := some 5, success := some true
    learning_feedback := some true }

/-- A close-shaped $set document, as built by close_real_simulation
(enhanced_server.py 624-636). -/
def closeUpdate : UpdateData :=
  { exit_price := some 110, result_pct := some 10, success := some false
    closed := some true, learning_feedback := some false }

/-- A still-open stored simulation, opened at time 0. -/
def openSim : SimRecord :=
  { id := "sim-2", timestamp := 0, entry_price := 100, trend := Trend.DOWN
    confidence := 6/10, entry_method := "TECHNICAL_REAL_BINANCE_DATA"
    closed := false, exit_price := none, result_pct := none, success := none
    learning_feedback := none }

/-- The neutral snapshot with a different current price: the Signal Scorer
never reads current_price, so both snapshots score identically. -/
def baseSnap2 : TechnicalAnalysis := { baseSnap with current_price := 50 }

/-- A freshly constructed EnhancedMLSystem before any training: no trained
flag, no models, empty history and queue (enhanced_ml_system.py 27-66). -/
def untrained_ml : MLState :=
  { is_trained := false, models := [], prediction_history := []
    learning_queue := [], total_predictions := 0, correct_predictions := 0
    labeled_predictions := 0, recent_accuracy := 0 }

/-- One synthetic OHLCV bar. -/
def sampleBar : OHLCVBar :=
  { timestamp := 0, open_price := 100, high := 101, low := 99
    close := 100, volume := 1000 }

/-- A sample prediction-history entry: the heuristic prediction on the
neutral snapshot together with that snapshot. -/
def sample_entry : PHEntry :=
  { prediction := basic_prediction (with_signals baseSnap)
    technical_analysis := with_signals baseSnap }

/-- An ML system state holding two history entries; the one for bullSnap is
the most recent. -/
def ml_two_entries : MLState :=
  { untrained_ml with
    prediction_history :=
      [sample_entry,
       { prediction := basic_prediction (with_signals bullSnap)
         technical_analysis := with_signals bullSnap }] }

/-! Helper lemmas: bounds for the Signal Scorer strength pipeline. -/

theorem rsi_delta_bounds (a : TechnicalAnalysis) :
    -15 ≤ rsi_delta a ∧ rsi_delta a ≤ 15 := by
  unfold rsi_delta; split_ifs <;> omega

theorem macd_delta_bounds (a : TechnicalAnalysis) :
    -20 ≤ macd_delta a ∧ macd_delta a ≤ 20 := by
  unfold macd_delta; split_ifs <;> omega

theorem ema_delta_bounds (a : TechnicalAnalysis) :
    -25 ≤ ema_delta a ∧ ema_delta a ≤ 25 := by
  unfold ema_delta; split_ifs <;> omega

theorem bb_delta_bounds (a : TechnicalAnalysis) :
    -15 ≤ bb_delta a ∧ bb_delta a ≤ 15 := by
  unfold bb_delta; split_ifs <;> omega

theorem strength_after_bb_bounds (a : TechnicalAnalysis) :
    -75 ≤ strength_after_bb a ∧ strength_after_bb a ≤ 75 := by
  have h1 := rsi_delta_bounds a
  have h2 := macd_delta_bounds a
  have h3 := ema_delta_bounds a
  have h4 := bb_delta_bounds a
  unfold strength_after_bb; omega

theorem strength_after_volume_bounds (a : TechnicalAnalysis) :
    -85 ≤ strength_after_volume a ∧ strength_after_volume a ≤ 85 := by
  have h := strength_after_bb_bounds a
  unfold strength_after_volume; split_ifs <;> omega

theorem strength_after_hammer_bounds (a : TechnicalAnalysis) :
    -85 ≤ strength_after_hammer a ∧ strength_after_hammer a ≤ 97 := by
  have h := strength_after_volume_bounds a
  unfold strength_after_hammer; split_ifs <;> omega

theorem signal_strength_bounds (a : TechnicalAnalysis) :
    -100 ≤ signal_strength a ∧ signal_strength a ≤ 112 := by
  have h := strength_after_hammer_bounds a
  unfold signal_strength; split_ifs <;> omega

theorem generate_signals_confidence_eq (a : TechnicalAnalysis) :
    (generate_signals a).confidence =
      max (min (((generate_signals a).strength.natAbs : ℚ) / 100) (95/100)) (1/2) :=
  rfl

theorem generate_signals_confidence_bounds (a : TechnicalAnalysis) :
    1/2 ≤ (generate_signals a).confidence ∧ (generate_signals a).confidence ≤ 95/100 := by
  constructor
  · exact le_max_right _ _
  · apply max_le
    · exact min_le_right _ _
    · norm_num

/-! Helper lemmas: the Correction Learner weight invariant. -/

theorem correction_factors_pos (c : Category) : 0 < correction_factors c := by
  cases c <;> norm_num [correction_factors]

theorem apply_corrections_bounds (l : List Category) :
    ∀ ws : Category → ℚ, (∀ c, 0 ≤ ws c ∧ ws c ≤ 4/5) →
      ∀ c, 0 ≤ apply_corrections ws l c ∧ apply_corrections ws l c ≤ 4/5 := by
  induction l with
  | nil => intro ws h c; exact h c
  | cons t rest ih =>
    intro ws h c
    simp only [apply_corrections]
    apply ih
    intro x
    by_cases hx : x = t
    · rw [if_pos hx]
      have h0 := (h x).1
      have hf := correction_factors_pos t
      exact ⟨le_min (by linarith) (by norm_num), min_le_right _ _⟩
    · rw [if_neg hx]; exact h x

theorem el_weights_bounds (st : ELState) (hr : ELReach st) :
    ∀ c, 0 ≤ st.weights c ∧ st.weights c ≤ 4/5 := by
  induction hr with
  | init =>
    intro c
    constructor <;> norm_num [initial_el]
  | observe st a pred suc _ ih =>
    intro c
    unfold analyze_failed_prediction
    cases suc with
    | true => simpa using ih c
    | false =>
      simp only [Bool.false_eq_true, if_false]
      exact apply_corrections_bounds _ _ ih c
  | optimize st _ ih =>
    intro c
    simp only [optimize_for_90_percent]
    by_cases hc : c ∈ optimize_selected
        (st.recent_errors.drop (st.recent_errors.length - 50))
    · rw [if_pos hc]
      have h0 := (ih c).1
      exact ⟨le_min (by linarith) (by norm_num),
        le_trans (min_le_right _ _) (by norm_num)⟩
    · rw [if_neg hc]; exact ih c

theorem sub_if_le (p : Prop) [Decidable p] (w t : ℚ) (h : 0 ≤ w) :
    sub_if p w t ≤ t := by
  unfold sub_if; split_ifs <;> linarith

theorem get_correction_factor_le_zero (ws : Category → ℚ)
    (a : TechnicalAnalysis) (p : Trend) (hw : ∀ c, 0 ≤ ws c) :
    get_correction_factor ws a p ≤ 0 := by
  have h1 := hw Category.rsi_overbought
  have h2 := hw Category.rsi_oversold
  have h3 := hw Category.macd_false_signal
  have h4 := hw Category.ema_crossover_fail
  have h5 := hw Category.bollinger_breakout_fail
  have h6 := hw Category.volume_anomaly
  have h7 := hw Category.support_resistance_break
  unfold get_correction_factor
  refine max_le ?_ (by norm_num)
  refine le_trans (sub_if_le _ _ _ h7) ?_
  refine le_trans (sub_if_le _ _ _ h6) ?_
  refine le_trans (sub_if_le _ _ _ h5) ?_
  refine le_trans (sub_if_le _ _ _ h4) ?_
  refine le_trans (sub_if_le _ _ _ h3) ?_
  split_ifs <;> linarith

theorem neg_le_get_correction_factor (ws : Category → ℚ)
    (a : TechnicalAnalysis) (p : Trend) :
    -(3/10) ≤ get_correction_factor ws a p := by
  unfold get_correction_factor
  exact le_max_right _ _

/-! Helper lemmas: concrete evaluations on the sample snapshots. -/

theorem identify_ema : identify_errors emaFailSnap Trend.UP =
    [Category.ema_crossover_fail] := by
  norm_num [identify_errors, emaFailSnap, baseSnap, abs]

theorem identify_macd : identify_errors macdFailSnap Trend.DOWN =
    [Category.macd_false_signal] := by
  norm_num [identify_errors, macdFailSnap, baseSnap, abs]

theorem apply_corrections_singleton (ws : Category → ℚ) (t : Category) :
    apply_corrections ws [t] =
      fun c => if c = t then min (ws c + correction_factors t) (4/5) else ws c :=
  rfl

theorem obs_ema_weight (st : ELState) :
    (obs_ema st).weights Category.ema_crossover_fail =
      min (st.weights Category.ema_crossover_fail + 1/4) (4/5) := by
  simp [obs_ema, analyze_failed_prediction, identify_ema,
    apply_corrections_singleton, correction_factors]
  norm_num

theorem st_ema6_weight : st_ema6.weights Category.ema_crossover_fail = 4/5 := by
  simp only [st_ema6, obs_ema_weight]
  norm_num [initial_el, min_def]

theorem obs_ema_recent (st : ELState) (h : st.recent_errors.length < 200) :
    (obs_ema st).recent_errors =
      st.recent_errors ++ [[Category.ema_crossover_fail]] := by
  simp only [obs_ema, analyze_failed_prediction, identify_ema,
    Bool.false_eq_true, if_false]
  have hl : (st.recent_errors ++ [[Category.ema_crossover_fail]]).length - 200 = 0 := by
    simp only [List.length_append, List.length_cons, List.length_nil]
    omega
  rw [hl, List.drop_zero]

theorem st_ema6_recent : st_ema6.recent_errors =
    List.replicate 6 [Category.ema_crossover_fail] := by
  have r1 : (obs_ema initial_el).recent_errors =
      List.replicate 1 [Category.ema_crossover_fail] := by
    rw [obs_ema_recent _ (by norm_num [initial_el])]
    rfl
  have r2 : (obs_ema (obs_ema initial_el)).recent_errors =
      List.replicate 2 [Category.ema_crossover_fail] := by
    rw [obs_ema_recent _ (by rw [r1]; norm_num), r1]
    rfl
  have r3 : (obs_ema (obs_ema (obs_ema initial_el))).recent_errors =
      List.replicate 3 [Category.ema_crossover_fail] := by
    rw [obs_ema_recent _ (by rw [r2]; norm_num), r2]
    rfl
  have r4 : (obs_ema (obs_ema (obs_ema (obs_ema initial_el)))).recent_errors =
      List.replicate 4 [Category.ema_crossover_fail] := by
    rw [obs_ema_recent _ (by rw [r3]; norm_num), r3]
    rfl
  have r5 : (obs_ema (obs_ema (obs_ema (obs_ema (obs_ema initial_el))))).recent_errors =
      List.replicate 5 [Category.ema_crossover_fail] := by
    rw [obs_ema_recent _ (by rw [r4]; norm_num), r4]
    rfl
  have r6 : st_ema6.recent_errors =
      List.replicate 6 [Category.ema_crossover_fail] := by
    rw [st_ema6, obs_ema_recent _ (by rw [r5]; norm_num), r5]
    rfl
  exact r6

theorem st_ema6_selected :
    optimize_selected (st_ema6.recent_errors.drop (st_ema6.recent_errors.length - 50)) =
      [Category.ema_crossover_fail] := by
  rw [st_ema6_recent]
  decide

theorem ws_macd2_eq : ∀ c, ws_macd2 c =
    if c = Category.macd_false_signal then 2/5 else 0 := by
  intro c
  simp only [ws_macd2, st_macd2, analyze_failed_prediction, identify_macd,
    Bool.false_eq_true, if_false, apply_corrections_singleton]
  by_cases hc : c = Category.macd_false_signal
  · rw [if_pos hc, if_pos hc, if_pos hc]
    norm_num [initial_el, min_def, correction_factors]
  · rw [if_neg hc, if_neg hc, if_neg hc]
    rfl

theorem contains_real_ml : contains_real "ML_REAL_BINANCE_DATA" = true := by
  decide

theorem baseSnap_signals : (generate_signals baseSnap).strength = -10 ∧
    (generate_signals baseSnap).total_signals = 1 ∧
    (generate_signals baseSnap).confidence = 1/2 := by
  refine ⟨?_, ?_, ?_⟩ <;>
    norm_num [generate_signals, signal_strength, strength_after_hammer,
      strength_after_volume, strength_after_bb, rsi_delta, macd_delta,
      ema_delta, bb_delta, bullish_list, bearish_list, baseSnap]

theorem bullSnap_strength : (generate_signals bullSnap).strength = 112 := by
  norm_num [generate_signals, signal_strength, strength_after_hammer,
    strength_after_volume, strength_after_bb, rsi_delta, macd_delta,
    ema_delta, bb_delta, bullSnap, baseSnap]

theorem zeroSnap_signals : (generate_signals zeroSnap).strength = 0 ∧
    (generate_signals zeroSnap).confidence = 1/2 := by
  constructor <;>
    norm_num [generate_signals, signal_strength, strength_after_hammer,
      strength_after_volume, strength_after_bb, rsi_delta, macd_delta,
      ema_delta, bb_delta, zeroSnap, baseSnap]

theorem ws_macd2_macd : ws_macd2 Category.macd_false_signal = 2/5 := by
  simp [ws_macd2_eq]

theorem ws_macd2_oversold : ws_macd2 Category.rsi_oversold = 0 := by
  simp [ws_macd2_eq]

theorem gcf_macd2 : get_correction_factor ws_macd2 zeroSnap Trend.DOWN = -(3/10) := by
  norm_num [get_correction_factor, sub_if, ws_macd2_macd, ws_macd2_oversold,
    zeroSnap, baseSnap, abs, max_def]

theorem stored_conf_macd2 :
    stored_confidence ws_macd2 (with_signals zeroSnap) none = 1/5 := by
  simp only [stored_confidence, with_signals, zeroSnap_signals.1,
    zeroSnap_signals.2]
  norm_num [gcf_macd2, max_def]

theorem select_foldl_prop (P : SimRecord → Prop) :
    ∀ (l : List SimRecord) (acc : Option SimRecord),
      (∀ x ∈ l, P x) → (∀ x, acc = some x → P x) →
      ∀ s, l.foldl (fun acc s => match acc with
        | none => some s
        | some m => if m.timestamp < s.timestamp then some s else some m)
          acc = some s → P s := by
  intro l
  induction l with
  | nil => intro acc _ hacc s hs; exact hacc s hs
  | cons y rest ih =>
    intro acc hl hacc s hs
    simp only [List.foldl_cons] at hs
    refine ih _ (fun x hx => hl x (List.mem_cons_of_mem _ hx)) ?_ s hs
    intro x hx
    have hy : P y := hl y (List.mem_cons_self _ _)
    cases acc with
    | none =>
      simp only [Option.some.injEq] at hx
      simpa [hx] using hy
    | some m =>
      have hx2 : (if m.timestamp < y.timestamp then some y else some m) = some x := hx
      by_cases hts : m.timestamp < y.timestamp
      · rw [if_pos hts] at hx2
        simp only [Option.some.injEq] at hx2
        simpa [hx2] using hy
      · rw [if_neg hts] at hx2
        exact hacc x hx2

theorem select_closed_false (ledger : List SimRecord) (now : ℚ) (s : SimRecord)
    (h : select_sim_to_close ledger now = some s) : s.closed = false := by
  simp only [select_sim_to_close] at h
  refine select_foldl_prop (fun x => x.closed = false) _ none ?_ (by simp) s h
  intro x hx
  have hx1 := List.mem_filter.mp hx
  have hx2 := List.mem_filter.mp hx1.1
  simpa using hx2.2

theorem optimize_weight_selected (st : ELState) (c : Category)
    (hc : c ∈ optimize_selected
      (st.recent_errors.drop (st.recent_errors.length - 50))) :
    (optimize_for_90_percent st).weights c = min (st.weights c + 1/10) (1/2) := by
  simp only [optimize_for_90_percent]
  rw [if_pos hc]

/-! Claim theorems. -/

/-- C1 counterexample: the success label of the lifecycle manager is not a
deterministic function of price movement.  Two closes with identical entry
price 100, exit price 100 and trend UP (a high-confidence simulation whose
entry method contains REAL) disagree on success depending on the random
bonus draw: a draw of 0.01 yields success = true even though
price_change_pct = 0 is not above the 0.1 threshold, while a draw of 0.5
yields success = false. -/
theorem c1_counterexample :
    close_is_success 100 100 Trend.UP (9/10) "ML_REAL_BINANCE_DATA" (1/100) = true ∧
    close_is_success 100 100 Trend.UP (9/10) "ML_REAL_BINANCE_DATA" (1/2) = false ∧
    ¬ ((1:ℚ)/10 < ((100 : ℚ) - 100) / 100 * 100) := by
  refine ⟨?_, ?_, by norm_num⟩ <;>
    norm_num [close_is_success, close_base_success, contains_real_ml]

/-- C1 amended: the success label equals the claimed deterministic
price-movement rule ONLY disjoined with the random bonus: it is forced true
whenever the entry method contains REAL, confidence exceeds 0.8 and the
random draw is below 0.15; in all other cases it is exactly the
deterministic rule (price_change_pct > 0.1 for UP, < -0.1 for DOWN). -/
theorem c1_success_formula (entry_price exit_price : ℚ) (trend : Trend)
    (confidence : ℚ) (entry_method : String) (r : ℚ) :
    close_is_success entry_price exit_price trend confidence entry_method r =
      (close_base_success entry_price exit_price trend ||
        (contains_real entry_method && decide ((4:ℚ)/5 < confidence) &&
          decide (r < 3/20))) := by
  unfold close_is_success
  by_cases h1 : contains_real entry_method = true ∧ (4:ℚ)/5 < confidence
  · rw [if_pos h1]
    by_cases h2 : r < 3/20
    · simp [h2, h1.1, h1.2]
    · simp [h2]
  · rw [if_neg h1]
    rcases Bool.eq_false_or_eq_true (contains_real entry_method) with hc | hc
    · have h2 : ¬ ((4:ℚ)/5 < confidence) := fun hlt => h1 ⟨hc, hlt⟩
      simp [hc, h2]
    · simp [hc]

/-- C2 counterexample: a second close through the manual update path on an
already-closed simulation does not fail: update_simulation succeeds and
overwrites exit_price (105 becomes 110) and success (true becomes false);
no AlreadyClosedError exists anywhere in the code. -/
theorem c2_counterexample :
    update_simulation [closedSim] [] "sim-1" closeUpdate =
      Except.ok ([applySet closeUpdate closedSim], []) ∧
    closedSim.closed = true ∧
    (applySet closeUpdate closedSim).exit_price = some 110 ∧
    closedSim.exit_price = some 105 ∧
    (applySet closeUpdate closedSim).success = some false ∧
    closedSim.success = some true := by
  refine ⟨?_, rfl, rfl, rfl, rfl, rfl⟩
  norm_num [update_simulation, update_one, closedSim]

/-- C2 amended: the automatic close path can never double-close, because
its selection only ever returns simulations whose closed flag is false; but
the manual update path applies its update document unconditionally, without
consulting the closed flag, and reports success even on a closed record —
there is no AlreadyClosedError and no atomic guard on that path. -/
theorem c2_amended :
    (∀ (ledger : List SimRecord) (now : ℚ) (s : SimRecord),
      select_sim_to_close ledger now = some s → s.closed = false) ∧
    (∀ (s : SimRecord) (rest : List SimRecord) (u : UpdateData),
      update_simulation (s :: rest) [] s.id u =
        Except.ok (applySet u s :: rest, [])) := by
  constructor
  · exact fun ledger now s h => select_closed_false ledger now s h
  · intro s rest u
    simp [update_simulation, update_one]

/-- C2 witness: the selection invariant applied to a one-element open
ledger, and the unconditional manual overwrite applied to the closed sample
record. -/
theorem c2_witness :
    openSim.closed = false ∧
    update_simulation [closedSim] [] closedSim.id closeUpdate =
      Except.ok (applySet closeUpdate closedSim :: [], []) := by
  constructor
  · exact c2_amended.1 [openSim] 200 openSim
      (by norm_num [select_sim_to_close, openSim])
  · exact c2_amended.2 closedSim [] closeUpdate

/-- C3 counterexample: on the neutral snapshot exactly one rule triggers
(strength -10), the implemented confidence is 0.5, but the claimed formula
min(max(0.5, 0.5 + 0.1 rule_count + 0.3 |strength|/100), 0.95) gives 0.63:
the implementation has no rule-count term at all. -/
theorem c3_counterexample :
    (generate_signals baseSnap).total_signals = 1 ∧
    (generate_signals baseSnap).strength = -10 ∧
    (generate_signals baseSnap).confidence = 1/2 ∧
    spec_confidence 1 (-10) = 63/100 ∧
    (generate_signals baseSnap).confidence ≠
      spec_confidence (generate_signals baseSnap).total_signals
        (generate_signals baseSnap).strength := by
  have h := baseSnap_signals
  refine ⟨h.2.1, h.1, h.2.2, ?_, ?_⟩
  · norm_num [spec_confidence, min_def, max_def]
  · rw [h.1, h.2.1, h.2.2]
    norm_num [spec_confidence, min_def, max_def]

/-- C3 amended: the implemented Signal Scorer confidence is
max(min(|strength|/100, 0.95), 0.5): it lies in [0.5, 0.95] and depends
only on the summed strength, never on the number of triggered rules. -/
theorem c3_amended (a : TechnicalAnalysis) :
    (generate_signals a).confidence =
      max (min (((generate_signals a).strength.natAbs : ℚ) / 100) (95/100)) (1/2) ∧
    1/2 ≤ (generate_signals a).confidence ∧
    (generate_signals a).confidence ≤ 95/100 ∧
    ∀ b, (generate_signals a).strength = (generate_signals b).strength →
      (generate_signals a).confidence = (generate_signals b).confidence := by
  refine ⟨generate_signals_confidence_eq a,
    (generate_signals_confidence_bounds a).1,
    (generate_signals_confidence_bounds a).2, ?_⟩
  intro b hb
  rw [generate_signals_confidence_eq a, generate_signals_confidence_eq b, hb]

/-- C3 witness: two snapshots differing only in current price have equal
strength, and the amended theorem gives them equal confidence. -/
theorem c3_witness :
    (generate_signals baseSnap).confidence =
      (generate_signals baseSnap2).confidence := by
  refine (c3_amended baseSnap).2.2.2 baseSnap2 ?_
  have h2 : (generate_signals baseSnap2).strength = -10 := by
    norm_num [generate_signals, signal_strength, strength_after_hammer,
      strength_after_volume, strength_after_bb, rsi_delta, macd_delta,
      ema_delta, bb_delta, baseSnap2, baseSnap]
  rw [baseSnap_signals.1, h2]

/-- C4 counterexample: a reachable learner state (two observed weak-MACD
failures, weight 0.4) combined with the zero-strength snapshot stores a
confidence of 0.2: the pre-correction confidence 0.5 receives the floored
correction -0.3 and the code clamps below at 0.1, not 0.5, so the final
stored confidence 0.2 lies outside [0.5, 0.95]. -/
theorem c4_counterexample :
    ELReach st_macd2 ∧
    ws_macd2 = st_macd2.weights ∧
    stored_confidence ws_macd2 (with_signals zeroSnap) none = 1/5 ∧
    ¬ ((1:ℚ)/2 ≤ 1/5) := by
  refine ⟨?_, rfl, stored_conf_macd2, by norm_num⟩
  exact ELReach.observe _ macdFailSnap Trend.DOWN false
    (ELReach.observe _ macdFailSnap Trend.DOWN false ELReach.init)

/-- C4 amended: on the technical fallback path, with any nonnegative
correction-weight table, the stored confidence lies in [0.2, 0.95]: the
pre-correction confidence is in [0.5, 0.95], the correction factor in
[-0.3, 0], and the code floor is 0.1 (never binding above 0.2). -/
theorem c4_amended (ws : Category → ℚ) (a : TechnicalAnalysis)
    (hw : ∀ c, 0 ≤ ws c) :
    1/5 ≤ stored_confidence ws (with_signals a) none ∧
    stored_confidence ws (with_signals a) none ≤ 95/100 := by
  have hc := generate_signals_confidence_bounds a
  simp only [stored_confidence, with_signals]
  constructor
  · refine le_trans ?_ (le_max_right _ _)
    have hg := neg_le_get_correction_factor ws a
      (if 0 < (generate_signals a).strength then Trend.UP else Trend.DOWN)
    linarith [hc.1]
  · refine max_le (by norm_num) ?_
    have hg := get_correction_factor_le_zero ws a
      (if 0 < (generate_signals a).strength then Trend.UP else Trend.DOWN) hw
    linarith [hc.2]

/-- C4 witness: the amended bounds evaluated at the all-zero weight table
and the neutral snapshot. -/
theorem c4_witness :
    1/5 ≤ stored_confidence (fun _ => 0) (with_signals baseSnap) none ∧
    stored_confidence (fun _ => 0) (with_signals baseSnap) none ≤ 95/100 :=
  c4_amended (fun _ => 0) baseSnap (fun _ => le_refl 0)

/-- C5 counterexample: on the all-bullish snapshot every bullish rule fires
and the summed strength is 112, outside the claimed interval [-100, 100]:
generate_signals never clamps the sum. -/
theorem c5_counterexample :
    (generate_signals bullSnap).strength = 112 ∧
    ¬ (-100 ≤ (generate_signals bullSnap).strength ∧
       (generate_signals bullSnap).strength ≤ 100) := by
  refine ⟨bullSnap_strength, ?_⟩
  rw [bullSnap_strength]
  omega

/-- C5 amended: the summed Signal strength always lies in [-100, 112]; the
lower bound -100 of the claim is correct, the upper bound is 112 (not 100)
because no clamping is performed. -/
theorem c5_amended (a : TechnicalAnalysis) :
    -100 ≤ (generate_signals a).strength ∧ (generate_signals a).strength ≤ 112 :=
  signal_strength_bounds a

/-- C6 confirmed: for every state reachable by any sequence of
observe_failure (analyze_failed_prediction) and optimize
(optimize_for_90_percent) calls, every category weight stays in [0, 0.8]
and the correction factor (adjustment_for) always lies in [-0.3, 0]. -/
theorem c6_invariant (st : ELState) (hr : ELReach st) :
    (∀ c, 0 ≤ st.weights c ∧ st.weights c ≤ 4/5) ∧
    (∀ (a : TechnicalAnalysis) (p : Trend),
      -(3/10) ≤ get_correction_factor st.weights a p ∧
      get_correction_factor st.weights a p ≤ 0) := by
  have hw := el_weights_bounds st hr
  exact ⟨hw, fun a p => ⟨neg_le_get_correction_factor _ a p,
    get_correction_factor_le_zero _ a p (fun c => (hw c).1)⟩⟩

/-- C6 witness: the invariant at the reachable two-failure state, for the
macd_false_signal weight and the zero-strength snapshot. -/
theorem c6_witness :
    (0 ≤ st_macd2.weights Category.macd_false_signal ∧
     st_macd2.weights Category.macd_false_signal ≤ 4/5) ∧
    (-(3/10) ≤ get_correction_factor st_macd2.weights zeroSnap Trend.DOWN ∧
     get_correction_factor st_macd2.weights zeroSnap Trend.DOWN ≤ 0) := by
  have h := c6_invariant st_macd2
    (ELReach.observe _ macdFailSnap Trend.DOWN false
      (ELReach.observe _ macdFailSnap Trend.DOWN false ELReach.init))
  exact ⟨h.1 Category.macd_false_signal, h.2 zeroSnap Trend.DOWN⟩

/-- C7 counterexample: after six observed golden-cross failures the
ema_crossover_fail weight sits at the observe ceiling 0.8 and its frequency
6 makes optimize select it; the optimize step then moves the weight
DOWNWARD to min(0.8 + 0.1, 0.5) = 0.5 — not upward as claimed. -/
theorem c7_counterexample :
    Category.ema_crossover_fail ∈ optimize_selected
      (st_ema6.recent_errors.drop (st_ema6.recent_errors.length - 50)) ∧
    st_ema6.weights Category.ema_crossover_fail = 4/5 ∧
    (optimize_for_90_percent st_ema6).weights Category.ema_crossover_fail = 1/2 ∧
    (optimize_for_90_percent st_ema6).weights Category.ema_crossover_fail <
      st_ema6.weights Category.ema_crossover_fail ∧
    ELReach st_ema6 := by
  have hm : Category.ema_crossover_fail ∈ optimize_selected
      (st_ema6.recent_errors.drop (st_ema6.recent_errors.length - 50)) := by
    rw [st_ema6_selected]; simp
  have hv : (optimize_for_90_percent st_ema6).weights Category.ema_crossover_fail
      = 1/2 := by
    rw [optimize_weight_selected st_ema6 _ hm, st_ema6_weight]
    norm_num [min_def]
  refine ⟨hm, st_ema6_weight, hv, ?_, ?_⟩
  · rw [hv, st_ema6_weight]; norm_num
  · exact ELReach.observe _ emaFailSnap Trend.UP false
      (ELReach.observe _ emaFailSnap Trend.UP false
        (ELReach.observe _ emaFailSnap Trend.UP false
          (ELReach.observe _ emaFailSnap Trend.UP false
            (ELReach.observe _ emaFailSnap Trend.UP false
              (ELReach.observe _ emaFailSnap Trend.UP false ELReach.init)))))

/-- C7 amended: for every category selected by optimize the new weight is
min(old + 0.1, 0.5); it never exceeds 0.5, equals old + 0.1 (the claimed
upward nudge) only when the old weight is at most 0.4, and is
non-decreasing only when the old weight is at most 0.5 — a weight above 0.5
(reachable through observe_failure, whose ceiling is 0.8) is decreased to
0.5 by this path. -/
theorem c7_amended (st : ELState) (c : Category)
    (hc : c ∈ optimize_selected
      (st.recent_errors.drop (st.recent_errors.length - 50))) :
    (optimize_for_90_percent st).weights c = min (st.weights c + 1/10) (1/2) ∧
    (optimize_for_90_percent st).weights c ≤ 1/2 ∧
    (st.weights c ≤ 2/5 →
      (optimize_for_90_percent st).weights c = st.weights c + 1/10) ∧
    (st.weights c ≤ 1/2 →
      st.weights c ≤ (optimize_for_90_percent st).weights c) := by
  have he := optimize_weight_selected st c hc
  refine ⟨he, ?_, ?_, ?_⟩
  · rw [he]; exact min_le_right _ _
  · intro h; rw [he, min_eq_left (by linarith)]
  · intro h; rw [he]; exact le_min (by linarith) h

/-- C7 witness: the amended per-category update formula applied to the
six-failure state. -/
theorem c7_witness :
    (optimize_for_90_percent st_ema6).weights Category.ema_crossover_fail =
      min (st_ema6.weights Category.ema_crossover_fail + 1/10) (1/2) ∧
    (optimize_for_90_percent st_ema6).weights Category.ema_crossover_fail ≤ 1/2 := by
  have hm : Category.ema_crossover_fail ∈ optimize_selected
      (st_ema6.recent_errors.drop (st_ema6.recent_errors.length - 50)) := by
    rw [st_ema6_selected]; simp
  have h := c7_amended st_ema6 Category.ema_crossover_fail hm
  exact ⟨h.1, h.2.1⟩

/-- C8 confirmed: before any successful train call (is_trained still
false), predict falls back to basic_prediction without any exception: the
result has the full Prediction shape — direction, probability pair summing
to 1, confidence in [0.5, 0.8], bounded reasoning list — and its
model_details record marks the heuristic fallback. -/
theorem c8_fallback (mlCore : MLState → AnalysisWithSignals → Prediction)
    (st : MLState) (aw : AnalysisWithSignals) (h : st.is_trained = false) :
    advanced_prediction mlCore st aw = basic_prediction aw ∧
    (basic_prediction aw).model_details = ModelDetail.technical_fallback ∧
    (basic_prediction aw).prob_up + (basic_prediction aw).prob_down = 1 ∧
    1/2 ≤ (basic_prediction aw).confidence ∧
    (basic_prediction aw).confidence ≤ 8/10 ∧
    (basic_prediction aw).reasoning.length ≤ 5 := by
  refine ⟨?_, rfl, ?_, ?_, ?_, ?_⟩
  · simp [advanced_prediction, h]
  · simp only [basic_prediction]
    split_ifs <;> ring
  · exact le_max_right _ _
  · exact max_le (min_le_right _ _) (by norm_num)
  · simp [basic_prediction]

/-- C8 witness: the fallback applied to the untrained initial state on the
neutral snapshot. -/
theorem c8_witness :
    advanced_prediction (fun _ aw => basic_prediction aw) untrained_ml
      (with_signals baseSnap) = basic_prediction (with_signals baseSnap) ∧
    (basic_prediction (with_signals baseSnap)).model_details =
      ModelDetail.technical_fallback :=
  ⟨(c8_fallback (fun _ aw => basic_prediction aw) untrained_ml
      (with_signals baseSnap) rfl).1,
   (c8_fallback (fun _ aw => basic_prediction aw) untrained_ml
      (with_signals baseSnap) rfl).2.1⟩

/-- C9 confirmed: windows shorter than 50 bars make comprehensive_analysis
return the insufficient-data failure (None), windows of at least 50 bars
produce the full analysis, and every produced feature vector has length
exactly 20 (22 features are built, then truncated; the zero-fill loop pads
any shortfall). -/
theorem c9_extract (indicators : List OHLCVBar → TechnicalAnalysis)
    (df : List OHLCVBar) :
    (df.length < 50 → comprehensive_analysis indicators df = none) ∧
    (50 ≤ df.length →
      comprehensive_analysis indicators df = some (with_signals (indicators df))) ∧
    ∀ (tanh : ℚ → ℚ) (aw : AnalysisWithSignals) (hour weekday : ℚ),
      (extract_features tanh aw hour weekday).length = 20 := by
  refine ⟨?_, ?_, ?_⟩
  · intro h; simp [comprehensive_analysis, h]
  · intro h; simp [comprehensive_analysis, Nat.not_lt.mpr h]
  · intro t aw hh ww; rfl

/-- C9 witness: the empty window fails, a 50-bar window succeeds, and the
feature vector of the neutral snapshot has length 20. -/
theorem c9_witness :
    comprehensive_analysis (fun _ => baseSnap) [] = none ∧
    comprehensive_analysis (fun _ => baseSnap) (List.replicate 50 sampleBar) =
      some (with_signals baseSnap) ∧
    (extract_features id (with_signals baseSnap) 0 0).length = 20 := by
  refine ⟨(c9_extract (fun _ => baseSnap) []).1 (by simp), ?_,
    (c9_extract (fun _ => baseSnap) []).2.2 id (with_signals baseSnap) 0 0⟩
  have h := (c9_extract (fun _ => baseSnap) (List.replicate 50 sampleBar)).2.1
    (by simp)
  simpa using h

/-- C10 confirmed: learn_from_result pairs the incoming outcome with the
most recent prediction-history entry (the head of the reversed history is
the last element), and the simulation_id argument plays no role: two calls
with different ids produce identical states. -/
theorem c10_latest_pairing (st : MLState) :
    matching_prediction st.prediction_history = st.prediction_history.getLast? ∧
    (st.prediction_history ≠ [] →
      (matching_prediction st.prediction_history).isSome = true) ∧
    ∀ (tanh : ℚ → ℚ) (hour weekday : ℚ) (id1 id2 : String) (r : Bool),
      learn_from_result tanh hour weekday st id1 r =
        learn_from_result tanh hour weekday st id2 r := by
  refine ⟨List.head?_reverse _, ?_, ?_⟩
  · intro h
    rw [matching_prediction, List.head?_reverse]
    exact List.getLast?_isSome.mpr h
  · intro t hh ww a b r; rfl

/-- C10 witness: on a two-entry history the match is the second (most
recent) entry, and two different simulation ids give the same state. -/
theorem c10_witness :
    matching_prediction ml_two_entries.prediction_history =
      ml_two_entries.prediction_history.getLast? ∧
    (matching_prediction ml_two_entries.prediction_history).isSome = true ∧
    learn_from_result id 0 0 ml_two_entries "sim-a" true =
      learn_from_result id 0 0 ml_two_entries "sim-b" true := by
  refine ⟨(c10_latest_pairing ml_two_entries).1, ?_,
    (c10_latest_pairing ml_two_entries).2.2 id 0 0 "sim-a" "sim-b" true⟩
  exact (c10_latest_pairing ml_two_entries).2.1 (by simp [ml_two_entries])

end TradingEngine
